import Mathlib

/-!
Verification of the Meta publishing relay endpoint and the dashboard
queue/template state machine.

The relay endpoint (a single `POST` handler) validates a JSON publish
request and forwards it as a form-encoded request to the upstream Graph
API.  The dashboard component keeps credentials, composer fields, a
template library and a submission queue, calling the relay asynchronously.

Times are modelled in milliseconds: the server clock (`Date.now()`) as a
`Nat`, parsed dates (`Date.parse` / `parseISO`) as `Option Int` (`none`
standing for an invalid date / `NaN`), with the date parser passed in as a
function parameter since its exact grammar is irrelevant to the
properties.  `Math.floor (x / 1000)` on an integer millisecond count is
`Int.fdiv x 1000`.  JavaScript truthiness of a possibly-undefined string
(non-empty and present) and of a possibly-undefined number (present and
non-zero) are modelled explicitly.
-/

/-- `String.prototype.trim`: strip leading and trailing whitespace.
Written on the character list so that it evaluates by kernel reduction
(the library `String.trim` is defined through `Substring` auxiliaries
that do not reduce). -/
def jsTrim (s : String) : String :=
  ⟨((s.data.dropWhile Char.isWhitespace).reverse.dropWhile Char.isWhitespace).reverse⟩

namespace MetaRelay

/-- Wire payload accepted by the relay route (`PublishRequest` in the
route file).  Every field is optional on the wire. -/
structure PublishRequest where
  pageId : Option String
  accessToken : Option String
  message : Option String
  link : Option String
  imageUrl : Option String
  scheduledTime : Option String
  mode : Option String
deriving Repr, DecidableEq

/-- JavaScript truthiness of an optional string: present and non-empty. -/
def otruthy : Option String → Bool
  | none => false
  | some s => s != ""

/-- Truthiness of `field?.trim()`: present and non-blank after trimming. -/
def trimmedTruthy : Option String → Bool
  | none => false
  | some s => jsTrim s != ""

/-- Truthiness of an optional number: present and non-zero
(`scheduleTimestamp` is used bare in an `if`). -/
def numTruthy : Option Int → Bool
  | none => false
  | some n => n != 0

/-- The form-encoded request the relay sends upstream: the endpoint
variant (`"photos"` or `"feed"`) chosen for the URL, and the body
parameters.  `scheduled_publish_time` is kept as the integer written with
`String(...)` in the source. -/
structure OutboundRequest where
  endpoint : String
  pageId : String
  access_token : String
  message : String
  link : Option String
  url : Option String
  scheduled_publish_time : Option Int
  published : Option String
deriving Repr, DecidableEq

/-- Outcome of the validation and request-construction phase of the
handler: either an early JSON error response (no outbound call is made),
or the outbound request that is sent with `fetch`. -/
inductive RelayStage where
  | reject (status : Nat) (error : String)
  | forward (req : OutboundRequest)
deriving Repr, DecidableEq

/-- `Math.floor(Date.now() / 1000)` for a millisecond clock value. -/
def nowSec (nowMs : Nat) : Int := ((nowMs / 1000 : Nat) : Int)

/-- Request construction (lines 58-83 of the route): endpoint choice,
trimmed credentials and message, link only for feed posts, `url` only for
photo posts, and the scheduling / published flags. -/
def buildRequest (p : PublishRequest) (scheduleTimestamp : Option Int) : OutboundRequest :=
  let isPhoto := otruthy p.imageUrl
  { endpoint := if isPhoto then "photos" else "feed"
  , pageId := p.pageId.getD ""
  , access_token := jsTrim (p.accessToken.getD "")
  , message := jsTrim (p.message.getD "")
  , link := if otruthy p.link && !isPhoto then some (jsTrim (p.link.getD "")) else none
  , url := if isPhoto && otruthy p.imageUrl then some (jsTrim (p.imageUrl.getD "")) else none
  , scheduled_publish_time :=
      if numTruthy scheduleTimestamp then scheduleTimestamp else none
  , published :=
      if numTruthy scheduleTimestamp then some "false"
      else if isPhoto then some "true" else none }

/-- The mode guard (lines 36-38) does not fire: `mode` is absent, falsy,
or one of the two literals. -/
def validMode (m : Option String) : Bool :=
  !(otruthy m && !(m == some "now") && !(m == some "schedule"))

/-- The validation pipeline of the `POST` handler (after JSON decoding):
missing-field check, mode check, scheduled-time parsing and future check,
then request construction.  `dateParse` stands for `Date.parse` (in
milliseconds, `none` for `NaN`), `nowMs` for `Date.now()`. -/
def relay (dateParse : String → Option Int) (nowMs : Nat) (p : PublishRequest) : RelayStage :=
  if !trimmedTruthy p.pageId || !trimmedTruthy p.accessToken || !trimmedTruthy p.message then
    .reject 400 "Missing required pageId, accessToken, or message."
  else if otruthy p.mode && !(p.mode == some "now") && !(p.mode == some "schedule") then
    .reject 400 "Invalid mode provided."
  else if otruthy p.scheduledTime then
    match dateParse (p.scheduledTime.getD "") with
    | none => .reject 400 "scheduledTime must be an ISO date."
    | some parsed =>
      let scheduleTimestamp := parsed.fdiv 1000
      if scheduleTimestamp ≤ nowSec nowMs then
        .reject 400 "scheduledTime must be in the future."
      else
        .forward (buildRequest p (some scheduleTimestamp))
  else
    .forward (buildRequest p none)

/-- Decoded upstream response body shapes (`GraphPublishResponse`): an
optional `id`, and an optional `error` that is either a bare string or an
object with an optional `message`.  A body that failed to decode as JSON
is `⟨none, none⟩` (the source substitutes `{}`). -/
inductive GraphError where
  | str (s : String)
  | obj (message : Option String)
deriving Repr, DecidableEq

structure GraphBody where
  id : Option String
  error : Option GraphError
deriving Repr, DecidableEq

/-- The error message extracted from an upstream body
(`typeof json.error === "string" ? json.error : json.error?.message ?? "Meta API error."`). -/
def graphErrorMsg : Option GraphError → String
  | some (.str s) => s
  | some (.obj m) => m.getD "Meta API error."
  | none => "Meta API error."

/-- The JSON response the relay finally returns to its client: an HTTP
status plus an optional `id` field and an optional `error` field. -/
structure Reply where
  status : Nat
  id : Option String
  error : Option String
deriving Repr, DecidableEq

/-- Result mapping for the upstream response (lines 92-105): success is
returned only when `response.ok` holds and `json.id` is truthy; otherwise
the extracted error message is returned with `response.status || 500`. -/
def mapUpstream (ok : Bool) (status : Nat) (json : GraphBody) : Reply :=
  if !ok || !(otruthy json.id) then
    { status := if status = 0 then 500 else status
    , id := none
    , error := some (graphErrorMsg json.error) }
  else
    { status := 200, id := json.id, error := none }

end MetaRelay

namespace Dashboard

/-- Publishing mode of the composer (`PublishMode`). -/
inductive PublishMode where
  | now
  | schedule
deriving Repr, DecidableEq

/-- A saved template (`PostTemplate`). -/
structure PostTemplate where
  id : String
  name : String
  message : String
  link : Option String
  imageUrl : Option String
deriving Repr, DecidableEq

/-- Status of a queue entry. -/
inductive PostStatus where
  | pending
  | success
  | error
deriving Repr, DecidableEq

/-- The response payload attached to a settled queue entry. -/
structure QueueResponse where
  id : Option String
  error : Option String
deriving Repr, DecidableEq

/-- One submission tracked in the activity queue (`QueuedPost`). -/
structure QueuedPost where
  id : String
  message : String
  link : Option String
  imageUrl : Option String
  mode : PublishMode
  scheduledTime : Option String
  createdAt : String
  status : PostStatus
  response : Option QueueResponse
deriving Repr, DecidableEq

/-- The JSON payload sent to the relay (`PublishPayload`). -/
structure PublishPayload where
  pageId : String
  accessToken : String
  message : String
  link : Option String
  imageUrl : Option String
  scheduledTime : Option String
  mode : PublishMode
deriving Repr, DecidableEq

/-- The mutable state held by `MetaAutomationDashboard`: credentials,
composer fields, template library (with its name input), queue, and the
dashboard-level feedback banners. -/
structure DashState where
  pageId : String
  accessToken : String
  mode : PublishMode
  message : String
  link : String
  imageUrl : String
  scheduledTime : String
  templates : List PostTemplate
  templateName : String
  queue : List QueuedPost
  errorMsg : Option String
  successMsg : Option String
deriving Repr, DecidableEq

/-- `date-fns` `isFuture (parseISO s)` at clock value `nowMs`: an invalid
parse (`NaN`) is never in the future. -/
def isFutureAt (parseISO : String → Option Int) (nowMs : Int) (s : String) : Bool :=
  match parseISO s with
  | some t => nowMs < t
  | none => false

/-- The `canSchedule` memo (lines 78-81): recomputed when `mode` or
`scheduledTime` change, i.e. during a render, using the clock value of
that render.  The submit handler reads this memoised boolean; it does not
re-run the comparison. -/
def canSchedule (parseISO : String → Option Int) (renderNowMs : Int)
    (mode : PublishMode) (scheduledTime : String) : Bool :=
  match mode with
  | .now => true
  | .schedule => isFutureAt parseISO renderNowMs scheduledTime

/-- `enqueuePost` (lines 109-146) up to the point where the asynchronous
relay call is started: the submission gate, payload construction, and the
synchronous insertion of the pending entry at the head of the queue.  The
second component is the payload handed to `publishToMeta` (`none` when the
gate rejects and no call is made).  `canSched` is the memoised
`canSchedule` value captured by the handler's closure. -/
def enqueuePost (st : DashState) (canSched : Bool) (freshId : String)
    (createdAtIso : String) : DashState × Option PublishPayload :=
  if jsTrim st.pageId == "" || jsTrim st.accessToken == "" || jsTrim st.message == "" then
    ({ st with errorMsg := some "Page ID, access token, and message are required." }, none)
  else if st.mode == .schedule && !canSched then
    ({ st with errorMsg := some "Scheduled time must be in the future." }, none)
  else
    let payload : PublishPayload :=
      { pageId := jsTrim st.pageId
      , accessToken := jsTrim st.accessToken
      , message := jsTrim st.message
      , link := if jsTrim st.link == "" then none else some (jsTrim st.link)
      , imageUrl := if jsTrim st.imageUrl == "" then none else some (jsTrim st.imageUrl)
      , scheduledTime := if st.mode == .schedule then some st.scheduledTime else none
      , mode := st.mode }
    let queued : QueuedPost :=
      { id := freshId
      , message := payload.message
      , link := payload.link
      , imageUrl := payload.imageUrl
      , mode := st.mode
      , scheduledTime := payload.scheduledTime
      , createdAt := createdAtIso
      , status := .pending
      , response := none }
    ({ st with
        queue := queued :: st.queue
      , errorMsg := none
      , successMsg := some (if st.mode == .schedule then "Scheduled post queued."
                            else "Immediate post queued.") },
     some payload)

/-- The queue update performed when the relay call settles (lines
150-160): map over the previous queue, replacing status and response of
the entry whose id matches, leaving every other entry as it was. -/
def resolveQueue (queue : List QueuedPost) (targetId : String) (ok : Bool)
    (data : QueueResponse) : List QueuedPost :=
  queue.map fun post =>
    if post.id == targetId then
      { post with status := if ok then .success else .error, response := some data }
    else post

/-- `handleTemplateSave` (lines 83-99): reject when the name or message is
blank after trimming; otherwise drop every template carrying the new
(trimmed) name, append the new template with a fresh id, and clear the
name input.  The stored message is the raw composer message. -/
def handleTemplateSave (st : DashState) (freshId : String) : DashState :=
  if jsTrim st.templateName == "" || jsTrim st.message == "" then
    { st with errorMsg := some "Template needs a name and message." }
  else
    let newTemplate : PostTemplate :=
      { id := freshId
      , name := jsTrim st.templateName
      , message := st.message
      , link := if jsTrim st.link == "" then none else some (jsTrim st.link)
      , imageUrl := if jsTrim st.imageUrl == "" then none else some (jsTrim st.imageUrl) }
    { st with
        templates := st.templates.filter (fun tpl => tpl.name != newTemplate.name) ++ [newTemplate]
      , templateName := ""
      , successMsg := some "Template saved."
      , errorMsg := none }

/-- `applyTemplate` (lines 101-107): copy the template's message, link and
imageUrl into the composer (absent link/imageUrl become empty inputs) and
set the feedback banners. -/
def applyTemplate (st : DashState) (template : PostTemplate) : DashState :=
  { st with
      message := template.message
    , link := template.link.getD ""
    , imageUrl := template.imageUrl.getD ""
    , successMsg := some ("Loaded template \"" ++ template.name ++ "\".")
    , errorMsg := none }

end Dashboard

namespace Fixtures
open MetaRelay Dashboard

/-- A concrete date parser for evaluating the model: `"sched"` parses to
epoch-millisecond 5000000, `"past"` to 1000, everything else is invalid. -/
def dpEx : String → Option Int := fun s =>
  if s = "sched" then some 5000000 else if s = "past" then some 1000 else none

def pSched : PublishRequest :=
  ⟨some "1", some "tok", some "msg", none, none, some "sched", some "schedule"⟩

def pSchedNow : PublishRequest :=
  ⟨some "1", some "tok", some "msg", none, none, some "sched", some "now"⟩

def pFeed : PublishRequest :=
  ⟨some "1", some "tok", some "msg", some "lnk", none, none, some "now"⟩

def pPhoto : PublishRequest :=
  ⟨some "1", some "tok", some "msg", some "lnk", some "img", none, none⟩

def pPast : PublishRequest :=
  ⟨some "1", some "tok", some "msg", none, none, some "past", some "schedule"⟩

def pBad : PublishRequest :=
  ⟨some "1", some "tok", some "msg", none, none, some "junk", some "schedule"⟩

/-- A concrete client-side parser: `"t1"` parses to epoch-millisecond
1000, everything else is invalid. -/
def parseEx : String → Option Int := fun s => if s = "t1" then some 1000 else none

/-- Composer state in schedule mode with scheduled time `"t1"`. -/
def stSchedEx : DashState := ⟨"p", "a", .schedule, "m", "", "", "t1", [], "", [], none, none⟩

/-- Composer state in immediate mode. -/
def stNowEx : DashState := ⟨"p", "a", .now, "m", "L", "", "t1", [], "", [], none, none⟩

/-- A two-entry pending queue with distinct identifiers. -/
def qEx : List QueuedPost :=
  [⟨"q1", "m", none, none, .now, none, "c1", .pending, none⟩,
   ⟨"q2", "n", none, none, .now, none, "c2", .pending, none⟩]

/-- Composer state about to save a template named `"A"` with message
`"X"`. -/
def stTplEx : DashState := ⟨"p", "a", .now, "X", "", "", "t", [], "A", [], none, none⟩

end Fixtures

section Sanity
open MetaRelay

example : relay (fun _ => none) 0
    ⟨some "123", some "tok", some "hello", none, none, none, some "now"⟩
    = .forward ⟨"feed", "123", "tok", "hello", none, none, none, none⟩ := by decide

example : relay (fun _ => some 5000000) 1000000
    ⟨some "123", some "tok", some "hello", none, none, some "t", none⟩
    = .forward ⟨"feed", "123", "tok", "hello", none, none, some 5000, some "false"⟩ := by decide

example : relay (fun _ => some 5000000) 5000000
    ⟨some "123", some "tok", some "hello", none, none, some "t", none⟩
    = .reject 400 "scheduledTime must be in the future." := by decide

example : relay (fun _ => none) 0
    ⟨some " ", some "tok", some "hello", none, none, none, none⟩
    = .reject 400 "Missing required pageId, accessToken, or message." := by decide

example : relay (fun _ => none) 0
    ⟨some "123", some "tok", some "hello", some "L", some "I", none, none⟩
    = .forward ⟨"photos", "123", "tok", "hello", none, some "I", none, some "true"⟩ := by decide

example : mapUpstream true 200 ⟨some "999", none⟩ = ⟨200, some "999", none⟩ := by decide

example : mapUpstream true 200 ⟨some "", none⟩ = ⟨200, none, some "Meta API error."⟩ := by decide

example : mapUpstream false 0 ⟨none, some (.obj (some "bad token"))⟩
    = ⟨500, none, some "bad token"⟩ := by decide

open Dashboard in
example :
    (enqueuePost ⟨"p", "a", .now, "m", "", "", "t", [], "", [], none, none⟩
      true "q1" "c1").1.queue
    = [⟨"q1", "m", none, none, .now, none, "c1", .pending, none⟩] := by decide

open Dashboard in
example :
    (enqueuePost ⟨"p", "a", .schedule, "m", "", "", "t", [], "", [], none, none⟩
      false "q1" "c1").2 = none := by decide

open Dashboard in
example :
    resolveQueue [⟨"q1", "m", none, none, .now, none, "c1", .pending, none⟩,
                  ⟨"q2", "n", none, none, .now, none, "c2", .pending, none⟩]
      "q2" true ⟨some "999", none⟩
    = [⟨"q1", "m", none, none, .now, none, "c1", .pending, none⟩,
       ⟨"q2", "n", none, none, .now, none, "c2", .success, some ⟨some "999", none⟩⟩] := by decide

open Dashboard in
example :
    (handleTemplateSave
      (handleTemplateSave ⟨"p", "a", .now, "X", "", "", "t", [], "A", [], none, none⟩ "i1"
        |> fun s1 => { s1 with templateName := "A", message := "Y" }) "i2").templates
    = [⟨"i2", "A", "Y", none, none⟩] := by decide

end Sanity

namespace MetaRelay

theorem validMode_guard {m : Option String} (h : validMode m = true) :
    (otruthy m && !(m == some "now") && !(m == some "schedule")) = false := by
  unfold validMode at h
  cases hx : (otruthy m && !(m == some "now") && !(m == some "schedule")) with
  | false => rfl
  | true => rw [hx] at h; simp at h

/-- Anything the relay forwards is `buildRequest` applied either to no
timestamp (scheduledTime falsy) or to a parsed timestamp that passed the
future check. -/
theorem relay_forward_cases (dp : String → Option Int) (nowMs : Nat)
    (p : PublishRequest) (req : OutboundRequest)
    (h : relay dp nowMs p = .forward req) :
    (otruthy p.scheduledTime = false ∧ req = buildRequest p none)
    ∨ (∃ ms, otruthy p.scheduledTime = true ∧ dp (p.scheduledTime.getD "") = some ms ∧
        nowSec nowMs < ms.fdiv 1000 ∧ req = buildRequest p (some (ms.fdiv 1000))) := by
  unfold relay at h
  split at h
  · exact absurd h (by simp)
  split at h
  · exact absurd h (by simp)
  split at h
  case isTrue hst =>
    cases hdp : dp (p.scheduledTime.getD "") with
    | none => rw [hdp] at h; exact absurd h (by simp)
    | some parsed =>
      rw [hdp] at h
      simp only at h
      split at h
      · exact absurd h (by simp)
      · rename_i hle
        refine Or.inr ⟨parsed, hst, rfl, by omega, ?_⟩
        cases h
        rfl
  case isFalse hst =>
    refine Or.inl ⟨by simpa using hst, ?_⟩
    cases h
    rfl

end MetaRelay

/-- C4: a relay request in which pageId, accessToken, or message is
missing or blank after trimming is answered with status 400 and the
missing-fields message, and nothing is forwarded upstream. -/
theorem relay_missing_fields_reject (dp : String → Option Int) (nowMs : Nat)
    (p : MetaRelay.PublishRequest)
    (h : MetaRelay.trimmedTruthy p.pageId = false
      ∨ MetaRelay.trimmedTruthy p.accessToken = false
      ∨ MetaRelay.trimmedTruthy p.message = false) :
    MetaRelay.relay dp nowMs p
      = .reject 400 "Missing required pageId, accessToken, or message."
    ∧ ∀ req, MetaRelay.relay dp nowMs p ≠ .forward req := by
  have hc : (!MetaRelay.trimmedTruthy p.pageId || !MetaRelay.trimmedTruthy p.accessToken
      || !MetaRelay.trimmedTruthy p.message) = true := by
    rcases h with h | h | h <;> simp [h]
  have h1 : MetaRelay.relay dp nowMs p
      = .reject 400 "Missing required pageId, accessToken, or message." := by
    simp [MetaRelay.relay, hc]
  exact ⟨h1, fun req hf => by rw [h1] at hf; exact MetaRelay.RelayStage.noConfusion hf⟩

/-- C4 witness: a whitespace-only pageId is rejected with the
missing-fields message and no outbound request exists. -/
theorem relay_missing_fields_reject_witness :
    MetaRelay.trimmedTruthy (some " ") = false
    ∧ MetaRelay.relay (fun _ => none) 0
        ⟨some " ", some "tok", some "hello", none, none, none, none⟩
      = .reject 400 "Missing required pageId, accessToken, or message." :=
  ⟨by decide,
    (relay_missing_fields_reject (fun _ => none) 0
      ⟨some " ", some "tok", some "hello", none, none, none, none⟩
      (Or.inl (by decide))).1⟩

namespace MetaRelay

/-- A forwarded request built from a scheduled time that parsed to `ms`
and passed the future check carries the epoch-second timestamp and
`published=false`. -/
theorem relay_forward_sched_fields (dp : String → Option Int) (nowMs : Nat)
    (p : PublishRequest) (s : String) (ms : Int) (req : OutboundRequest)
    (hst : p.scheduledTime = some s) (hsne : s ≠ "") (hdp : dp s = some ms)
    (hfut : nowSec nowMs < ms.fdiv 1000) (h : relay dp nowMs p = .forward req) :
    req.scheduled_publish_time = some (ms.fdiv 1000) ∧ req.published = some "false" := by
  rcases relay_forward_cases dp nowMs p req h with ⟨h1, _⟩ | ⟨ms2, _, hdp2, _, rfl⟩
  · rw [hst] at h1; simp [otruthy, hsne] at h1
  · rw [hst] at hdp2
    simp only [Option.getD_some] at hdp2
    have hms : ms = ms2 := Option.some.inj (hdp.symm.trans hdp2)
    subst hms
    have h0 : (0 : Int) ≤ nowSec nowMs := by
      unfold nowSec; exact Int.natCast_nonneg _
    have hne : ms.fdiv 1000 ≠ 0 := by omega
    simp [buildRequest, numTruthy, hne]

/-- A forwarded request built with no (truthy) scheduled time has no
`scheduled_publish_time`, and `published` is `"true"` exactly for photo
posts. -/
theorem relay_forward_nosched_fields (dp : String → Option Int) (nowMs : Nat)
    (p : PublishRequest) (req : OutboundRequest)
    (hsch : otruthy p.scheduledTime = false) (h : relay dp nowMs p = .forward req) :
    req.scheduled_publish_time = none
    ∧ req.published = (if otruthy p.imageUrl then some "true" else none) := by
  rcases relay_forward_cases dp nowMs p req h with ⟨_, rfl⟩ | ⟨ms2, h1, _, _, _⟩
  · constructor
    · simp [buildRequest, numTruthy]
    · cases himg : otruthy p.imageUrl <;> simp [buildRequest, numTruthy, himg]
  · rw [hsch] at h1; exact absurd h1 (by simp)

end MetaRelay

/-- C1: a request with mode `schedule` and a scheduledTime that parses
and is strictly in the future (at second granularity) is forwarded with
`scheduled_publish_time` equal to the floored epoch-second timestamp and
`published=false`; an immediate feed post (no scheduledTime, no imageUrl)
carries neither field; an immediate photo post carries
`published="true"`. -/
theorem relay_schedule_and_publish_flags :
    (∀ (dp : String → Option Int) (nowMs : Nat) (p : MetaRelay.PublishRequest)
        (s : String) (ms : Int) (req : MetaRelay.OutboundRequest),
        p.mode = some "schedule" → p.scheduledTime = some s → s ≠ "" →
        dp s = some ms → MetaRelay.nowSec nowMs < ms.fdiv 1000 →
        MetaRelay.relay dp nowMs p = .forward req →
        req.scheduled_publish_time = some (ms.fdiv 1000) ∧ req.published = some "false")
    ∧ (∀ (dp : String → Option Int) (nowMs : Nat) (p : MetaRelay.PublishRequest)
        (req : MetaRelay.OutboundRequest),
        MetaRelay.otruthy p.scheduledTime = false → MetaRelay.otruthy p.imageUrl = false →
        MetaRelay.relay dp nowMs p = .forward req →
        req.scheduled_publish_time = none ∧ req.published = none)
    ∧ (∀ (dp : String → Option Int) (nowMs : Nat) (p : MetaRelay.PublishRequest)
        (req : MetaRelay.OutboundRequest),
        MetaRelay.otruthy p.scheduledTime = false → MetaRelay.otruthy p.imageUrl = true →
        MetaRelay.relay dp nowMs p = .forward req →
        req.scheduled_publish_time = none ∧ req.published = some "true") := by
  refine ⟨?_, ?_, ?_⟩
  · intro dp nowMs p s ms req _ hst hsne hdp hfut h
    exact MetaRelay.relay_forward_sched_fields dp nowMs p s ms req hst hsne hdp hfut h
  · intro dp nowMs p req hsch himg h
    have hf := MetaRelay.relay_forward_nosched_fields dp nowMs p req hsch h
    rw [himg] at hf
    simpa using hf
  · intro dp nowMs p req hsch himg h
    have hf := MetaRelay.relay_forward_nosched_fields dp nowMs p req hsch h
    rw [himg] at hf
    simpa using hf

/-- C1 witness: the scheduled request forwards with timestamp 5000 and
`published=false`; the immediate feed request carries neither field; the
immediate photo request carries `published="true"`. -/
theorem relay_schedule_and_publish_flags_witness :
    (MetaRelay.relay Fixtures.dpEx 2000000 Fixtures.pSched
        = .forward (MetaRelay.buildRequest Fixtures.pSched (some 5000))
      ∧ (MetaRelay.buildRequest Fixtures.pSched (some 5000)).scheduled_publish_time = some 5000
        ∧ (MetaRelay.buildRequest Fixtures.pSched (some 5000)).published = some "false")
    ∧ (MetaRelay.relay Fixtures.dpEx 0 Fixtures.pFeed
        = .forward (MetaRelay.buildRequest Fixtures.pFeed none)
      ∧ (MetaRelay.buildRequest Fixtures.pFeed none).scheduled_publish_time = none
        ∧ (MetaRelay.buildRequest Fixtures.pFeed none).published = none)
    ∧ (MetaRelay.relay Fixtures.dpEx 0 Fixtures.pPhoto
        = .forward (MetaRelay.buildRequest Fixtures.pPhoto none)
      ∧ (MetaRelay.buildRequest Fixtures.pPhoto none).scheduled_publish_time = none
        ∧ (MetaRelay.buildRequest Fixtures.pPhoto none).published = some "true") :=
  ⟨⟨by decide,
    relay_schedule_and_publish_flags.1 Fixtures.dpEx 2000000 Fixtures.pSched
      "sched" 5000000 (MetaRelay.buildRequest Fixtures.pSched (some 5000))
      (by decide) (by decide) (by decide) (by decide) (by decide) (by decide)⟩,
   ⟨by decide,
    relay_schedule_and_publish_flags.2.1 Fixtures.dpEx 0 Fixtures.pFeed
      (MetaRelay.buildRequest Fixtures.pFeed none)
      (by decide) (by decide) (by decide)⟩,
   ⟨by decide,
    relay_schedule_and_publish_flags.2.2 Fixtures.dpEx 0 Fixtures.pPhoto
      (MetaRelay.buildRequest Fixtures.pPhoto none)
      (by decide) (by decide) (by decide)⟩⟩

/-- C2: on a request that passes the field and mode checks and carries a
present scheduledTime, an unparseable value is rejected with status 400
and the ISO-date message, and a value whose floored epoch-second
timestamp is not strictly greater than the floored current time
(including equal to now and in the past) is rejected with status 400 and
the must-be-in-the-future message. -/
theorem relay_scheduledTime_errors (dp : String → Option Int) (nowMs : Nat)
    (p : MetaRelay.PublishRequest) (s : String)
    (hpid : MetaRelay.trimmedTruthy p.pageId = true)
    (hatk : MetaRelay.trimmedTruthy p.accessToken = true)
    (hmsg : MetaRelay.trimmedTruthy p.message = true)
    (hmode : MetaRelay.validMode p.mode = true)
    (hst : p.scheduledTime = some s) (hsne : s ≠ "") :
    (dp s = none →
      MetaRelay.relay dp nowMs p = .reject 400 "scheduledTime must be an ISO date.")
    ∧ (∀ ms, dp s = some ms → ms.fdiv 1000 ≤ MetaRelay.nowSec nowMs →
      MetaRelay.relay dp nowMs p = .reject 400 "scheduledTime must be in the future.") := by
  have hg := MetaRelay.validMode_guard hmode
  have hcond : (!MetaRelay.trimmedTruthy p.pageId || !MetaRelay.trimmedTruthy p.accessToken
      || !MetaRelay.trimmedTruthy p.message) = false := by
    simp [hpid, hatk, hmsg]
  have hot : MetaRelay.otruthy (some s) = true := by
    simp [MetaRelay.otruthy, hsne]
  constructor
  · intro hdp
    simp [MetaRelay.relay, hcond, hg, hot, hst, hdp]
  · intro ms hdp hle
    simp [MetaRelay.relay, hcond, hg, hot, hst, hdp, hle]

/-- C2 witness: an unparseable scheduledTime yields the ISO-date error;
a scheduledTime equal to the current instant (after truncation to whole
seconds) yields the must-be-in-the-future error. -/
theorem relay_scheduledTime_errors_witness :
    (Fixtures.dpEx "junk" = none
      ∧ MetaRelay.relay Fixtures.dpEx 0 Fixtures.pBad
        = .reject 400 "scheduledTime must be an ISO date.")
    ∧ (Fixtures.dpEx "past" = some 1000
      ∧ MetaRelay.relay Fixtures.dpEx 1500 Fixtures.pPast
        = .reject 400 "scheduledTime must be in the future.") :=
  ⟨⟨by decide,
    (relay_scheduledTime_errors Fixtures.dpEx 0 Fixtures.pBad "junk"
      (by decide) (by decide) (by decide) (by decide) (by decide) (by decide)).1
      (by decide)⟩,
   ⟨by decide,
    (relay_scheduledTime_errors Fixtures.dpEx 1500 Fixtures.pPast "past"
      (by decide) (by decide) (by decide) (by decide) (by decide) (by decide)).2
      1000 (by decide) (by decide)⟩⟩

/-- C5: a forwarded request with a (truthy) imageUrl targets the photos
endpoint and omits any supplied link; with no imageUrl it targets the
feed endpoint and a supplied (non-empty) link is forwarded trimmed. -/
theorem relay_photo_feed_variants :
    (∀ (dp : String → Option Int) (nowMs : Nat) (p : MetaRelay.PublishRequest)
        (req : MetaRelay.OutboundRequest),
        MetaRelay.otruthy p.imageUrl = true →
        MetaRelay.relay dp nowMs p = .forward req →
        req.endpoint = "photos" ∧ req.link = none)
    ∧ (∀ (dp : String → Option Int) (nowMs : Nat) (p : MetaRelay.PublishRequest)
        (req : MetaRelay.OutboundRequest),
        MetaRelay.otruthy p.imageUrl = false →
        MetaRelay.relay dp nowMs p = .forward req →
        req.endpoint = "feed"
        ∧ ∀ l, p.link = some l → l ≠ "" → req.link = some (jsTrim l)) := by
  constructor
  · intro dp nowMs p req hiu h
    rcases MetaRelay.relay_forward_cases dp nowMs p req h with ⟨_, rfl⟩ | ⟨ms, _, _, _, rfl⟩ <;>
      simp [MetaRelay.buildRequest, hiu]
  · intro dp nowMs p req hiu h
    rcases MetaRelay.relay_forward_cases dp nowMs p req h with ⟨_, rfl⟩ | ⟨ms, _, _, _, rfl⟩ <;>
    · refine ⟨by simp [MetaRelay.buildRequest, hiu], ?_⟩
      intro l hl hlne
      have hol : MetaRelay.otruthy (some l) = true := by
        simp [MetaRelay.otruthy, hlne]
      simp [MetaRelay.buildRequest, hiu, hl, hol]

/-- C5 witness: the photo request is forwarded to the photos endpoint
with no link even though a link was supplied; the feed request is
forwarded to the feed endpoint with its link. -/
theorem relay_photo_feed_variants_witness :
    (MetaRelay.relay Fixtures.dpEx 0 Fixtures.pPhoto
        = .forward (MetaRelay.buildRequest Fixtures.pPhoto none)
      ∧ (MetaRelay.buildRequest Fixtures.pPhoto none).endpoint = "photos"
        ∧ (MetaRelay.buildRequest Fixtures.pPhoto none).link = none)
    ∧ (MetaRelay.relay Fixtures.dpEx 0 Fixtures.pFeed
        = .forward (MetaRelay.buildRequest Fixtures.pFeed none)
      ∧ (MetaRelay.buildRequest Fixtures.pFeed none).endpoint = "feed"
        ∧ (MetaRelay.buildRequest Fixtures.pFeed none).link = some "lnk") :=
  ⟨⟨by decide,
    relay_photo_feed_variants.1 Fixtures.dpEx 0 Fixtures.pPhoto
      (MetaRelay.buildRequest Fixtures.pPhoto none) (by decide) (by decide)⟩,
   ⟨by decide, by
    have hfeed := relay_photo_feed_variants.2 Fixtures.dpEx 0 Fixtures.pFeed
      (MetaRelay.buildRequest Fixtures.pFeed none) (by decide) (by decide)
    exact ⟨hfeed.1, hfeed.2 "lnk" (by decide) (by decide)⟩⟩⟩

/-- C10: the relay's behaviour does not depend on `mode` beyond the
literal check: two requests that agree on every field but `mode`, both
with an acceptable mode value, produce the same relay outcome; and a
request with mode `"now"` (or no mode) that carries a valid future
scheduledTime is still forwarded with `scheduled_publish_time` and
`published=false`. -/
theorem relay_mode_independent :
    (∀ (dp : String → Option Int) (nowMs : Nat) (p q : MetaRelay.PublishRequest),
        p.pageId = q.pageId → p.accessToken = q.accessToken → p.message = q.message →
        p.link = q.link → p.imageUrl = q.imageUrl → p.scheduledTime = q.scheduledTime →
        MetaRelay.validMode p.mode = true → MetaRelay.validMode q.mode = true →
        MetaRelay.relay dp nowMs p = MetaRelay.relay dp nowMs q)
    ∧ (∀ (dp : String → Option Int) (nowMs : Nat) (p : MetaRelay.PublishRequest)
        (s : String) (ms : Int) (req : MetaRelay.OutboundRequest),
        (p.mode = none ∨ p.mode = some "now") → p.scheduledTime = some s → s ≠ "" →
        dp s = some ms → MetaRelay.nowSec nowMs < ms.fdiv 1000 →
        MetaRelay.relay dp nowMs p = .forward req →
        req.scheduled_publish_time = some (ms.fdiv 1000) ∧ req.published = some "false") := by
  constructor
  · intro dp nowMs p q h1 h2 h3 h4 h5 h6 hp hq
    obtain ⟨pid, atk, msg, lnk, img, sch, mp⟩ := p
    obtain ⟨pid2, atk2, msg2, lnk2, img2, sch2, mq⟩ := q
    simp only at h1 h2 h3 h4 h5 h6
    subst h1; subst h2; subst h3; subst h4; subst h5; subst h6
    have gp := MetaRelay.validMode_guard hp
    have gq := MetaRelay.validMode_guard hq
    simp only at gp gq
    have hb : ∀ ts, MetaRelay.buildRequest ⟨pid, atk, msg, lnk, img, sch, mp⟩ ts
        = MetaRelay.buildRequest ⟨pid, atk, msg, lnk, img, sch, mq⟩ ts := by
      intro ts; rfl
    simp only [MetaRelay.relay, gp, gq, hb]
  · intro dp nowMs p s ms req _ hst hsne hdp hfut h
    exact MetaRelay.relay_forward_sched_fields dp nowMs p s ms req hst hsne hdp hfut h

/-- C10 witness: the same payload relayed with mode `"schedule"` and with
mode `"now"` produces the identical forwarded request, carrying the
scheduling fields in both cases. -/
theorem relay_mode_independent_witness :
    MetaRelay.relay Fixtures.dpEx 2000000 Fixtures.pSched
      = MetaRelay.relay Fixtures.dpEx 2000000 Fixtures.pSchedNow
    ∧ (MetaRelay.relay Fixtures.dpEx 2000000 Fixtures.pSchedNow
        = .forward (MetaRelay.buildRequest Fixtures.pSchedNow (some 5000))
      ∧ (MetaRelay.buildRequest Fixtures.pSchedNow (some 5000)).scheduled_publish_time
          = some 5000
        ∧ (MetaRelay.buildRequest Fixtures.pSchedNow (some 5000)).published = some "false") :=
  ⟨relay_mode_independent.1 Fixtures.dpEx 2000000 Fixtures.pSched Fixtures.pSchedNow
    (by decide) (by decide) (by decide) (by decide) (by decide) (by decide)
    (by decide) (by decide),
   ⟨by decide,
    relay_mode_independent.2 Fixtures.dpEx 2000000 Fixtures.pSchedNow "sched" 5000000
      (MetaRelay.buildRequest Fixtures.pSchedNow (some 5000))
      (Or.inr (by decide)) (by decide) (by decide) (by decide) (by decide) (by decide)⟩⟩

/-- C3 counterexample: with a successful upstream HTTP response (`ok`,
status 200) whose decoded body does contain an identifier field — the
empty string — the relay nevertheless returns a failure reply (no `id`,
error `"Meta API error."`), because the source tests `json.id` for
truthiness, not presence. -/
theorem mapUpstream_id_presence_refuted :
    ((⟨some "", none⟩ : MetaRelay.GraphBody).id).isSome = true
    ∧ MetaRelay.mapUpstream true 200 ⟨some "", none⟩
        = ⟨200, none, some "Meta API error."⟩
    ∧ (MetaRelay.mapUpstream true 200 ⟨some "", none⟩).id = none := by decide

/-- C3 (amended): the relay returns the success reply `{id}` with status
200 exactly when the upstream HTTP response is successful and the decoded
body contains a non-empty identifier field; every other combination
yields a failure whose message is the upstream error field if it is a
string, else the nested message field, else `"Meta API error."`, and
whose status is the upstream status, or 500 when it is zero/absent. -/
theorem mapUpstream_success_criterion (ok : Bool) (status : Nat)
    (json : MetaRelay.GraphBody) :
    ((ok = true ∧ ∃ s, json.id = some s ∧ s ≠ "") →
      MetaRelay.mapUpstream ok status json = ⟨200, json.id, none⟩)
    ∧ ((ok = false ∨ json.id = none ∨ json.id = some "") →
      MetaRelay.mapUpstream ok status json
        = ⟨if status = 0 then 500 else status, none,
            some (MetaRelay.graphErrorMsg json.error)⟩)
    ∧ (∀ e, json.error = some (.str e) → MetaRelay.graphErrorMsg json.error = e)
    ∧ (∀ m, json.error = some (.obj (some m)) → MetaRelay.graphErrorMsg json.error = m)
    ∧ ((json.error = none ∨ json.error = some (.obj none)) →
      MetaRelay.graphErrorMsg json.error = "Meta API error.") := by
  refine ⟨?_, ?_, ?_, ?_, ?_⟩
  · rintro ⟨hok, s, hid, hsne⟩
    simp [MetaRelay.mapUpstream, hok, hid, MetaRelay.otruthy, hsne]
  · rintro (hok | hid | hid)
    · simp [MetaRelay.mapUpstream, hok]
    · simp [MetaRelay.mapUpstream, MetaRelay.otruthy, hid]
    · simp [MetaRelay.mapUpstream, MetaRelay.otruthy, hid]
  · intro e he
    simp [MetaRelay.graphErrorMsg, he]
  · intro m hm
    simp [MetaRelay.graphErrorMsg, hm]
  · rintro (he | he) <;> simp [MetaRelay.graphErrorMsg, he]

/-- C3 witness: a successful upstream reply with a non-empty id maps to
the 200 success reply; a failed upstream reply with status 0 and a nested
error message maps to a 500 failure carrying that message; a string error
field is used verbatim. -/
theorem mapUpstream_success_criterion_witness :
    MetaRelay.mapUpstream true 200 ⟨some "999", none⟩ = ⟨200, some "999", none⟩
    ∧ MetaRelay.mapUpstream false 0 ⟨none, some (.obj (some "bad token"))⟩
        = ⟨500, none, some "bad token"⟩
    ∧ MetaRelay.graphErrorMsg (some (.str "boom")) = "boom" :=
  ⟨(mapUpstream_success_criterion true 200 ⟨some "999", none⟩).1
      ⟨rfl, "999", rfl, by decide⟩,
   (mapUpstream_success_criterion false 0 ⟨none, some (.obj (some "bad token"))⟩).2.1
      (Or.inl rfl),
   (mapUpstream_success_criterion true 0 ⟨none, some (.str "boom")⟩).2.2.1
      "boom" rfl⟩

/-- C9: applying a template is idempotent — a second application with no
intervening edits changes nothing — the composer message, link and
imageUrl equal the template's stored fields (absent optional fields
becoming empty inputs), and the credentials, mode and scheduling fields
are untouched. -/
theorem applyTemplate_idempotent_frame (st : Dashboard.DashState)
    (t : Dashboard.PostTemplate) :
    Dashboard.applyTemplate (Dashboard.applyTemplate st t) t = Dashboard.applyTemplate st t
    ∧ (Dashboard.applyTemplate st t).message = t.message
    ∧ (Dashboard.applyTemplate st t).link = t.link.getD ""
    ∧ (Dashboard.applyTemplate st t).imageUrl = t.imageUrl.getD ""
    ∧ (Dashboard.applyTemplate st t).pageId = st.pageId
    ∧ (Dashboard.applyTemplate st t).accessToken = st.accessToken
    ∧ (Dashboard.applyTemplate st t).mode = st.mode
    ∧ (Dashboard.applyTemplate st t).scheduledTime = st.scheduledTime
    ∧ (Dashboard.applyTemplate st t).templates = st.templates
    ∧ (Dashboard.applyTemplate st t).queue = st.queue :=
  ⟨rfl, rfl, rfl, rfl, rfl, rfl, rfl, rfl, rfl, rfl⟩

namespace Dashboard

/-- When no entry carries the target identifier, resolving is a no-op. -/
theorem resolveQueue_no_match (queue : List QueuedPost) (targetId : String)
    (ok : Bool) (data : QueueResponse)
    (hall : ∀ post ∈ queue, post.id ≠ targetId) :
    resolveQueue queue targetId ok data = queue := by
  induction queue with
  | nil => rfl
  | cons a t ih =>
    have ha : a.id ≠ targetId := hall a (by simp)
    have ht := ih (fun p hp => hall p (by simp [hp]))
    simp only [resolveQueue, List.map_cons] at ht ⊢
    rw [ht]
    simp [ha]

end Dashboard

/-- C7: resolving a relay call for a given identifier preserves the
queue's length, rewrites exactly the entries carrying that identifier to
the settled status with the response attached, leaves every other entry
(and its position) unchanged, and is a no-op when no entry carries the
identifier. -/
theorem resolveQueue_frame (queue : List Dashboard.QueuedPost) (targetId : String)
    (ok : Bool) (data : Dashboard.QueueResponse) :
    (Dashboard.resolveQueue queue targetId ok data).length = queue.length
    ∧ (∀ (i : Nat) (h1 : i < queue.length)
        (h2 : i < (Dashboard.resolveQueue queue targetId ok data).length),
        ((queue.get ⟨i, h1⟩).id ≠ targetId →
          (Dashboard.resolveQueue queue targetId ok data).get ⟨i, h2⟩ = queue.get ⟨i, h1⟩)
        ∧ ((queue.get ⟨i, h1⟩).id = targetId →
          (Dashboard.resolveQueue queue targetId ok data).get ⟨i, h2⟩
            = { queue.get ⟨i, h1⟩ with
                  status := if ok then .success else .error
                , response := some data }))
    ∧ ((∀ post ∈ queue, post.id ≠ targetId) →
        Dashboard.resolveQueue queue targetId ok data = queue) := by
  refine ⟨by simp [Dashboard.resolveQueue], ?_,
    Dashboard.resolveQueue_no_match queue targetId ok data⟩
  intro i h1 h2
  constructor
  · intro hne
    simp only [List.get_eq_getElem] at hne ⊢
    simp [Dashboard.resolveQueue, List.getElem_map, hne]
  · intro heq
    simp only [List.get_eq_getElem] at heq ⊢
    simp [Dashboard.resolveQueue, List.getElem_map, heq]

/-- C7 witness: in the two-entry queue, resolving `"q2"` with a success
leaves entry 0 unchanged, settles entry 1, and resolving an identifier
that is absent leaves the queue unchanged. -/
theorem resolveQueue_frame_witness :
    ((Fixtures.qEx.get ⟨0, by decide⟩).id ≠ "q2"
      ∧ (Dashboard.resolveQueue Fixtures.qEx "q2" true ⟨some "999", none⟩).get ⟨0, by decide⟩
          = Fixtures.qEx.get ⟨0, by decide⟩)
    ∧ (Dashboard.resolveQueue Fixtures.qEx "q2" true ⟨some "999", none⟩).get ⟨1, by decide⟩
        = { Fixtures.qEx.get ⟨1, by decide⟩ with
              status := .success, response := some ⟨some "999", none⟩ }
    ∧ Dashboard.resolveQueue Fixtures.qEx "zzz" true ⟨some "999", none⟩ = Fixtures.qEx :=
  ⟨⟨by decide,
    ((resolveQueue_frame Fixtures.qEx "q2" true ⟨some "999", none⟩).2.1 0
      (by decide) (by decide)).1 (by decide)⟩,
   ((resolveQueue_frame Fixtures.qEx "q2" true ⟨some "999", none⟩).2.1 1
      (by decide) (by decide)).2 (by decide),
   (resolveQueue_frame Fixtures.qEx "zzz" true ⟨some "999", none⟩).2.2
      (by decide)⟩

/-- C6 counterexample: the `canSchedule` memo is computed during a render
(here at clock 500, when `"t1"` = epoch-ms 1000 was still in the future)
and the submit handler only reads that captured boolean.  At a later
submit instant (2000) the chosen timestamp is no longer strictly in the
future, yet the gate passes: a queue entry is created and a relay payload
issued — the check is not re-evaluated against the clock at the moment of
the submit check. -/
theorem enqueuePost_submit_time_refuted :
    Fixtures.parseEx "t1" = some 1000
    ∧ Dashboard.canSchedule Fixtures.parseEx 500 .schedule "t1" = true
    ∧ ¬ ((2000 : Int) < 1000)
    ∧ (Dashboard.enqueuePost Fixtures.stSchedEx
        (Dashboard.canSchedule Fixtures.parseEx 500 .schedule "t1") "q1" "c1").1.queue.length
        = Fixtures.stSchedEx.queue.length + 1
    ∧ (Dashboard.enqueuePost Fixtures.stSchedEx
        (Dashboard.canSchedule Fixtures.parseEx 500 .schedule "t1") "q1" "c1").2
        = some ⟨"p", "a", "m", none, none, some "t1", .schedule⟩ := by decide

/-- C6 (amended): with the `canSchedule` value computed from the clock of
the latest render, submission is rejected (no queue entry, no relay call)
when a required field is blank after trimming, or when mode is schedule
and the chosen timestamp was not strictly in the future at that render;
otherwise a pending entry with a fresh identifier, the trimmed payload
and the current creation time is inserted at the head of the queue, and
the relay payload is issued. -/
theorem enqueuePost_gate_render_time (parseISO : String → Option Int)
    (renderNowMs : Int) (st : Dashboard.DashState) (freshId createdAtIso : String) :
    ((jsTrim st.pageId = "" ∨ jsTrim st.accessToken = "" ∨ jsTrim st.message = "") →
      (Dashboard.enqueuePost st
          (Dashboard.canSchedule parseISO renderNowMs st.mode st.scheduledTime)
          freshId createdAtIso).1.queue = st.queue
      ∧ (Dashboard.enqueuePost st
          (Dashboard.canSchedule parseISO renderNowMs st.mode st.scheduledTime)
          freshId createdAtIso).2 = none)
    ∧ (jsTrim st.pageId ≠ "" → jsTrim st.accessToken ≠ "" → jsTrim st.message ≠ "" →
        st.mode = .schedule →
        Dashboard.isFutureAt parseISO renderNowMs st.scheduledTime = false →
        (Dashboard.enqueuePost st
            (Dashboard.canSchedule parseISO renderNowMs st.mode st.scheduledTime)
            freshId createdAtIso).1.queue = st.queue
        ∧ (Dashboard.enqueuePost st
            (Dashboard.canSchedule parseISO renderNowMs st.mode st.scheduledTime)
            freshId createdAtIso).2 = none)
    ∧ (jsTrim st.pageId ≠ "" → jsTrim st.accessToken ≠ "" → jsTrim st.message ≠ "" →
        (st.mode = .now ∨ Dashboard.isFutureAt parseISO renderNowMs st.scheduledTime = true) →
        (Dashboard.enqueuePost st
            (Dashboard.canSchedule parseISO renderNowMs st.mode st.scheduledTime)
            freshId createdAtIso).2
          = some ⟨jsTrim st.pageId, jsTrim st.accessToken, jsTrim st.message,
              (if jsTrim st.link == "" then none else some (jsTrim st.link)),
              (if jsTrim st.imageUrl == "" then none else some (jsTrim st.imageUrl)),
              (if st.mode == .schedule then some st.scheduledTime else none), st.mode⟩
        ∧ (Dashboard.enqueuePost st
            (Dashboard.canSchedule parseISO renderNowMs st.mode st.scheduledTime)
            freshId createdAtIso).1.queue
          = ⟨freshId, jsTrim st.message,
              (if jsTrim st.link == "" then none else some (jsTrim st.link)),
              (if jsTrim st.imageUrl == "" then none else some (jsTrim st.imageUrl)),
              st.mode,
              (if st.mode == .schedule then some st.scheduledTime else none),
              createdAtIso, .pending, none⟩ :: st.queue) := by
  refine ⟨?_, ?_, ?_⟩
  · intro h
    have hc : (jsTrim st.pageId == "" || jsTrim st.accessToken == ""
        || jsTrim st.message == "") = true := by
      rcases h with h | h | h <;> simp [h]
    constructor <;> simp [Dashboard.enqueuePost, hc]
  · intro h1 h2 h3 hmode hfut
    have hc : (jsTrim st.pageId == "" || jsTrim st.accessToken == ""
        || jsTrim st.message == "") = false := by
      simp [h1, h2, h3]
    have hcs : Dashboard.canSchedule parseISO renderNowMs Dashboard.PublishMode.schedule
        st.scheduledTime = false := by
      simp [Dashboard.canSchedule, hfut]
    constructor <;> simp [Dashboard.enqueuePost, hc, hmode, hcs]
  · intro h1 h2 h3 h4
    have hc : (jsTrim st.pageId == "" || jsTrim st.accessToken == ""
        || jsTrim st.message == "") = false := by
      simp [h1, h2, h3]
    have hgate : (st.mode == Dashboard.PublishMode.schedule
        && !Dashboard.canSchedule parseISO renderNowMs st.mode st.scheduledTime) = false := by
      rcases h4 with hmode | hfut
      · simp [hmode]
      · cases hm : st.mode <;> simp [Dashboard.canSchedule, hm, hfut]
    constructor <;> simp [Dashboard.enqueuePost, hc, hgate]

/-- C6 witness: an immediate-mode submission with all fields present
creates the pending head entry and issues the relay payload. -/
theorem enqueuePost_gate_render_time_witness :
    (Dashboard.enqueuePost Fixtures.stNowEx
        (Dashboard.canSchedule Fixtures.parseEx 0 Fixtures.stNowEx.mode
          Fixtures.stNowEx.scheduledTime) "q9" "c9").2
      = some ⟨"p", "a", "m", some "L", none, none, .now⟩
    ∧ (Dashboard.enqueuePost Fixtures.stNowEx
        (Dashboard.canSchedule Fixtures.parseEx 0 Fixtures.stNowEx.mode
          Fixtures.stNowEx.scheduledTime) "q9" "c9").1.queue
      = [⟨"q9", "m", some "L", none, .now, none, "c9", .pending, none⟩] := by
  have h := (enqueuePost_gate_render_time Fixtures.parseEx 0 Fixtures.stNowEx "q9" "c9").2.2
    (by decide) (by decide) (by decide) (Or.inl (by decide))
  exact ⟨by rw [h.1]; decide, by rw [h.2]; decide⟩

/-- C8: saving a template rejects (template list unchanged) when the name
or the message is blank after trimming; on accept, every template sharing
the new trimmed name is removed and the new template is appended with the
fresh identifier; consequently saving name A with message X and then name
A with message Y leaves exactly one template named A, whose message is Y
(and whose identifier is the second save's). -/
theorem handleTemplateSave_replace (st : Dashboard.DashState) (freshId : String) :
    ((jsTrim st.templateName = "" ∨ jsTrim st.message = "") →
      (Dashboard.handleTemplateSave st freshId).templates = st.templates)
    ∧ (jsTrim st.templateName ≠ "" → jsTrim st.message ≠ "" →
      (Dashboard.handleTemplateSave st freshId).templates
        = st.templates.filter (fun tpl => tpl.name != jsTrim st.templateName)
          ++ [⟨freshId, jsTrim st.templateName, st.message,
              (if jsTrim st.link == "" then none else some (jsTrim st.link)),
              (if jsTrim st.imageUrl == "" then none else some (jsTrim st.imageUrl))⟩])
    ∧ (∀ id2 msgY : String, jsTrim st.templateName ≠ "" → jsTrim st.message ≠ "" →
        jsTrim msgY ≠ "" →
        ((Dashboard.handleTemplateSave
            { Dashboard.handleTemplateSave st freshId with
                templateName := st.templateName, message := msgY } id2).templates.countP
            (fun tpl => tpl.name == jsTrim st.templateName) = 1
        ∧ (Dashboard.handleTemplateSave
            { Dashboard.handleTemplateSave st freshId with
                templateName := st.templateName, message := msgY } id2).templates.filter
            (fun tpl => tpl.name == jsTrim st.templateName)
          = [⟨id2, jsTrim st.templateName, msgY,
              (if jsTrim st.link == "" then none else some (jsTrim st.link)),
              (if jsTrim st.imageUrl == "" then none else some (jsTrim st.imageUrl))⟩])) := by
  refine ⟨?_, ?_, ?_⟩
  · intro h
    have hc : (jsTrim st.templateName == "" || jsTrim st.message == "") = true := by
      rcases h with h | h <;> simp [h]
    simp [Dashboard.handleTemplateSave, hc]
  · intro hn hm
    have hc : (jsTrim st.templateName == "" || jsTrim st.message == "") = false := by
      simp [hn, hm]
    simp [Dashboard.handleTemplateSave, hc]
  · intro id2 msgY hn hm hy
    have hc1 : (jsTrim st.templateName == "" || jsTrim st.message == "") = false := by
      simp [hn, hm]
    have hc2 : (jsTrim st.templateName == "" || jsTrim msgY == "") = false := by
      simp [hn, hy]
    simp only [Dashboard.handleTemplateSave, hc1, hc2, Bool.false_eq_true, if_false,
      List.filter_append, List.filter_filter, List.countP_append]
    constructor
    · simp [List.countP_filter, List.countP_cons]
    · simp [List.filter_filter]

/-- C8 witness: saving name A / message X and then name A / message Y on
a concrete state leaves exactly one template named A, and it is the
second save's template with message Y. -/
theorem handleTemplateSave_replace_witness :
    (Dashboard.handleTemplateSave Fixtures.stTplEx "i1").templates
      = [⟨"i1", "A", "X", none, none⟩]
    ∧ (Dashboard.handleTemplateSave
        { Dashboard.handleTemplateSave Fixtures.stTplEx "i1" with
            templateName := Fixtures.stTplEx.templateName, message := "Y" } "i2").templates.countP
        (fun tpl => tpl.name == jsTrim Fixtures.stTplEx.templateName) = 1
    ∧ (Dashboard.handleTemplateSave
        { Dashboard.handleTemplateSave Fixtures.stTplEx "i1" with
            templateName := Fixtures.stTplEx.templateName, message := "Y" } "i2").templates.filter
        (fun tpl => tpl.name == jsTrim Fixtures.stTplEx.templateName)
      = [⟨"i2", "A", "Y", none, none⟩] := by
  have h2 := (handleTemplateSave_replace Fixtures.stTplEx "i1").2.1 (by decide) (by decide)
  have h3 := (handleTemplateSave_replace Fixtures.stTplEx "i1").2.2 "i2" "Y"
    (by decide) (by decide) (by decide)
  refine ⟨by rw [h2]; decide, h3.1, by rw [h3.2]; decide⟩
